import Mathlib

/-!
Shallow embedding of `src/geodepy/statistics.py` (GeodePy statistics module)
over real and rational arithmetic, together with theorems settling the
specification claims about it.

Modelling conventions:
* `math.radians`, `math.degrees`, `math.atan2` become real-valued functions;
  `math.atan2 y x` is the argument of the complex number `x + y*i`, with
  range `(-pi, pi]`.
* `math.sqrt` raises `ValueError` on a negative argument, so code calling it
  is embedded as `Except String` with an explicit sign test before each
  square root.
* Python float division raises `ZeroDivisionError` when the divisor is zero,
  so `circ_hz_pu` is embedded as `Except String` with an explicit zero test.
* A numpy 2-D array is embedded as `NpMatrix`: its shape plus a total entry
  function (entries outside the shape are irrelevant padding, fixed to 0 by
  the constructors used here).
* The `isinstance(dof, int)` check in `k_val95` is embedded by a tagged
  union `PyNum` of the Python numeric types that can reach it.
-/

namespace GeodePy

open Real Matrix

/-- math.radians: degrees to radians. -/
noncomputable def radians (x : ℝ) : ℝ := x * (Real.pi / 180)

/-- math.degrees: radians to degrees. -/
noncomputable def degrees (x : ℝ) : ℝ := x * (180 / Real.pi)

/-- math.atan2 over the reals: the argument of the complex number
`x + y*i`, with range `(-pi, pi]`. -/
noncomputable def atan2 (y x : ℝ) : ℝ := Complex.arg ⟨x, y⟩

/-- `rotation_matrix(lat, lon)` from src/geodepy/statistics.py: the 3x3
rotation matrix for a latitude and longitude given in decimal degrees. -/
noncomputable def rotation_matrix (lat lon : ℝ) : Matrix (Fin 3) (Fin 3) ℝ :=
  let rlat := radians lat
  let rlon := radians lon
  Matrix.of
    ![![-Real.sin rlon, -Real.sin rlat * Real.cos rlon, Real.cos rlat * Real.cos rlon],
      ![Real.cos rlon, -Real.sin rlat * Real.sin rlon, Real.cos rlat * Real.sin rlon],
      ![0, Real.cos rlat, Real.sin rlat]]

/-- A numpy 2-D array of floats: a shape `(rows, cols)` plus entries.
Entries are a total function; positions outside the shape are padding. -/
structure NpMatrix where
  rows : ℕ
  cols : ℕ
  entry : ℕ → ℕ → ℝ

/-- Embed a 3x3 real matrix as an `NpMatrix` (padding entries 0). -/
def mk3x3 (M : Matrix (Fin 3) (Fin 3) ℝ) : NpMatrix :=
  ⟨3, 3, fun i j => if h : i < 3 ∧ j < 3 then M ⟨i, h.1⟩ ⟨j, h.2⟩ else 0⟩

/-- Read the top-left 3x3 block of an `NpMatrix` as a matrix. -/
def toMat (A : NpMatrix) : Matrix (Fin 3) (Fin 3) ℝ :=
  Matrix.of fun i j => A.entry i j

/-- `vcv_cart2local(vcv_cart, lat, lon)` from src/geodepy/statistics.py:
transform a VCV from the Cartesian to the local frame.  A 3x1 column of
variances is first padded out to a diagonal 3x3 matrix; any other shape
aborts the call (`sys.exit('Matrix must be either 3x1 or 3x3')`), embedded
as `Except.error`. -/
noncomputable def vcv_cart2local (vcv_cart : NpMatrix) (lat lon : ℝ) :
    Except String NpMatrix :=
  if vcv_cart.rows = 3 then
    if vcv_cart.cols = 1 then
      let m : Matrix (Fin 3) (Fin 3) ℝ :=
        Matrix.of ![![vcv_cart.entry 0 0, 0, 0],
                    ![0, vcv_cart.entry 1 0, 0],
                    ![0, 0, vcv_cart.entry 2 0]]
      .ok (mk3x3 ((rotation_matrix lat lon)ᵀ * m * rotation_matrix lat lon))
    else if vcv_cart.cols = 3 then
      .ok (mk3x3 ((rotation_matrix lat lon)ᵀ * toMat vcv_cart * rotation_matrix lat lon))
    else .error "Matrix must be either 3x1 or 3x3"
  else .error "Matrix must be either 3x1 or 3x3"

/-- `vcv_local2cart(vcv_local, lat, lon)` from src/geodepy/statistics.py:
transform a VCV from the local to the Cartesian frame; shape handling as in
`vcv_cart2local`. -/
noncomputable def vcv_local2cart (vcv_local : NpMatrix) (lat lon : ℝ) :
    Except String NpMatrix :=
  if vcv_local.rows = 3 then
    if vcv_local.cols = 1 then
      let m : Matrix (Fin 3) (Fin 3) ℝ :=
        Matrix.of ![![vcv_local.entry 0 0, 0, 0],
                    ![0, vcv_local.entry 1 0, 0],
                    ![0, 0, vcv_local.entry 2 0]]
      .ok (mk3x3 (rotation_matrix lat lon * m * (rotation_matrix lat lon)ᵀ))
    else if vcv_local.cols = 3 then
      .ok (mk3x3 (rotation_matrix lat lon * toMat vcv_local * (rotation_matrix lat lon)ᵀ))
    else .error "Matrix must be either 3x1 or 3x3"
  else .error "Matrix must be either 3x1 or 3x3"

/-- `error_ellipse(vcv)` from src/geodepy/statistics.py: semi-major axis,
semi-minor axis and orientation of the error ellipse of a 3x3 VCV.  Each
`math.sqrt` call raises `ValueError: math domain error` on a negative
argument, embedded as `Except.error` tested in evaluation order. -/
noncomputable def error_ellipse (vcv : Matrix (Fin 3) (Fin 3) ℝ) :
    Except String (ℝ × ℝ × ℝ) :=
  if (vcv 0 0 - vcv 1 1) ^ 2 + 4 * vcv 0 1 ^ 2 < 0 then .error "math domain error"
  else
    let z := Real.sqrt ((vcv 0 0 - vcv 1 1) ^ 2 + 4 * vcv 0 1 ^ 2)
    if 0.5 * (vcv 0 0 + vcv 1 1 + z) < 0 then .error "math domain error"
    else
      let a := Real.sqrt (0.5 * (vcv 0 0 + vcv 1 1 + z))
      if 0.5 * (vcv 0 0 + vcv 1 1 - z) < 0 then .error "math domain error"
      else
        let b := Real.sqrt (0.5 * (vcv 0 0 + vcv 1 1 - z))
        .ok (a, b, 90 - degrees (0.5 * atan2 (2 * vcv 0 1) (vcv 0 0 - vcv 1 1)))

/-- `circ_hz_pu(a, b)` from src/geodepy/statistics.py: circularised
horizontal PU from the semi-major and semi-minor axes.  The division
`b / a` raises `ZeroDivisionError` when `a == 0`, embedded as
`Except.error`; exact decimal arithmetic over ℚ. -/
def circ_hz_pu (a b : ℚ) : Except String ℚ :=
  if a = 0 then .error "ZeroDivisionError"
  else
    let q0 : ℚ := 1.960790
    let q1 : ℚ := 0.004071
    let q2 : ℚ := 0.114276
    let q3 : ℚ := 0.371625
    let c := b / a
    let k := q0 + q1 * c + q2 * c ^ 2 + q3 * c ^ 3
    .ok (a * k)

/-- `ttable_p95` from src/geodepy/statistics.py: the 120-entry table of 95%
coverage factors for degrees of freedom 1..120. -/
def ttable_p95 : List ℚ :=
  [12.7062, 4.30265, 3.18245, 2.77645, 2.57058, 2.44691,
   2.36462, 2.30600, 2.26216, 2.22814, 2.20099, 2.17881,
   2.16037, 2.14479, 2.13145, 2.11991, 2.10982, 2.10092,
   2.09302, 2.08596, 2.07961, 2.07387, 2.06866, 2.06390,
   2.05954, 2.05553, 2.05183, 2.04841, 2.04523, 2.04227,
   2.03951, 2.03693, 2.03452, 2.03224, 2.03011, 2.02809,
   2.02619, 2.02439, 2.02269, 2.02108, 2.01954, 2.01808,
   2.01669, 2.01537, 2.01410, 2.01290, 2.01174, 2.01063,
   2.00958, 2.00856, 2.00758, 2.00665, 2.00575, 2.00488,
   2.00404, 2.00324, 2.00247, 2.00172, 2.00100, 2.00030,
   1.99962, 1.99897, 1.99834, 1.99773, 1.99714, 1.99656,
   1.99601, 1.99547, 1.99495, 1.99444, 1.99394, 1.99346,
   1.99300, 1.99254, 1.99210, 1.99167, 1.99125, 1.99085,
   1.99045, 1.99006, 1.98969, 1.98932, 1.98896, 1.98861,
   1.98827, 1.98793, 1.98761, 1.98729, 1.98698, 1.98667,
   1.98638, 1.98609, 1.98580, 1.98552, 1.98525, 1.98498,
   1.98472, 1.98447, 1.98422, 1.98397, 1.98373, 1.98350,
   1.98326, 1.98304, 1.98282, 1.98260, 1.98238, 1.98217,
   1.98197, 1.98177, 1.98157, 1.98137, 1.98118, 1.98099,
   1.98081, 1.98063, 1.98045, 1.98027, 1.98010, 1.97993]

/-- `k_val95(dof)` from src/geodepy/statistics.py, for an integer argument
(the `isinstance` check is modelled separately by `k_val95_py`): coverage
factor k for the given degrees of freedom. -/
def k_val95 (dof : ℤ) : ℚ :=
  if dof < 1 then ttable_p95.getD 0 0
  else if dof > 120 then 1.96
  else ttable_p95.getD (dof - 1).toNat 0

/-- A Python numeric value reaching `k_val95`: either an `int` or a
`float` (floats carried exactly, as rationals). -/
inductive PyNum where
  | int (n : ℤ)
  | float (q : ℚ)

/-- `k_val95` including its `isinstance(dof, int)` guard: a non-int
argument raises `TypeError('Degrees of Freedom must be Int')`, embedded as
`Except.error`. -/
def k_val95_py (dof : PyNum) : Except String ℚ :=
  match dof with
  | .int n => .ok (k_val95 n)
  | .float _ => .error "Degrees of Freedom must be Int"

/-! ### Helper lemmas -/

lemma toMat_mk3x3 (M : Matrix (Fin 3) (Fin 3) ℝ) : toMat (mk3x3 M) = M := by
  ext i j
  simp [toMat, mk3x3, i.isLt, j.isLt]

lemma rot_mul_transpose (lat lon : ℝ) :
    rotation_matrix lat lon * (rotation_matrix lat lon)ᵀ = 1 := by
  have hlat := Real.sin_sq_add_cos_sq (radians lat)
  have hlon := Real.sin_sq_add_cos_sq (radians lon)
  ext i j
  simp only [Matrix.mul_apply, Matrix.transpose_apply, Fin.sum_univ_three]
  fin_cases i <;> fin_cases j <;>
    simp [rotation_matrix, Matrix.one_apply] <;>
    ring_nf <;> simp only [Real.cos_sq'] <;> ring_nf

lemma transpose_mul_rot (lat lon : ℝ) :
    (rotation_matrix lat lon)ᵀ * rotation_matrix lat lon = 1 := by
  have hlat := Real.sin_sq_add_cos_sq (radians lat)
  have hlon := Real.sin_sq_add_cos_sq (radians lon)
  ext i j
  simp only [Matrix.mul_apply, Matrix.transpose_apply, Fin.sum_univ_three]
  fin_cases i <;> fin_cases j <;>
    simp [rotation_matrix, Matrix.one_apply] <;>
    ring_nf <;> simp only [Real.cos_sq'] <;> ring_nf

@[simp] lemma mk3x3_rows (M : Matrix (Fin 3) (Fin 3) ℝ) : (mk3x3 M).rows = 3 := rfl

@[simp] lemma mk3x3_cols (M : Matrix (Fin 3) (Fin 3) ℝ) : (mk3x3 M).cols = 3 := rfl

lemma conj_roundtrip (lat lon : ℝ) (M : Matrix (Fin 3) (Fin 3) ℝ) :
    rotation_matrix lat lon * ((rotation_matrix lat lon)ᵀ * M * rotation_matrix lat lon) *
      (rotation_matrix lat lon)ᵀ = M := by
  have h := rot_mul_transpose lat lon
  calc rotation_matrix lat lon * ((rotation_matrix lat lon)ᵀ * M * rotation_matrix lat lon) *
        (rotation_matrix lat lon)ᵀ
      = rotation_matrix lat lon * (rotation_matrix lat lon)ᵀ * M *
        (rotation_matrix lat lon * (rotation_matrix lat lon)ᵀ) := by
        simp only [Matrix.mul_assoc]
    _ = M := by rw [h, Matrix.one_mul, Matrix.mul_one]

/-! ### Claims -/

/-- C1: for every symmetric 3x3 matrix V and every latitude and longitude,
`vcv_local2cart (vcv_cart2local V lat lon) lat lon` succeeds and returns V
exactly (over real arithmetic), because the rotation matrix composed with
its transpose is the identity. -/
theorem vcv_cart2local_local2cart_roundtrip (M : Matrix (Fin 3) (Fin 3) ℝ)
    (lat lon : ℝ) (_hsymm : M.IsSymm) :
    (vcv_cart2local (mk3x3 M) lat lon).bind (fun W => vcv_local2cart W lat lon) =
      .ok (mk3x3 M) := by
  simp [vcv_cart2local, vcv_local2cart, toMat_mk3x3, Except.bind, conj_roundtrip lat lon M]

/-- Witness for C1 at the symmetric matrix 1 and lat = lon = 0. -/
theorem vcv_cart2local_local2cart_roundtrip_witness :
    (vcv_cart2local (mk3x3 1) 0 0).bind (fun W => vcv_local2cart W 0 0) =
      .ok (mk3x3 1) :=
  vcv_cart2local_local2cart_roundtrip 1 0 0 Matrix.isSymm_one

/-- C2: for every input matrix whose row count is not 3, or whose column
count is neither 1 nor 3, both `vcv_cart2local` and `vcv_local2cart` abort
with the shape error and return no result. -/
theorem vcv_shape_rejected (A : NpMatrix) (lat lon : ℝ)
    (h : A.rows ≠ 3 ∨ (A.cols ≠ 1 ∧ A.cols ≠ 3)) :
    vcv_cart2local A lat lon = .error "Matrix must be either 3x1 or 3x3" ∧
    vcv_local2cart A lat lon = .error "Matrix must be either 3x1 or 3x3" := by
  rcases h with h | ⟨h1, h3⟩
  · simp [vcv_cart2local, vcv_local2cart, h]
  · by_cases hr : A.rows = 3 <;> simp [vcv_cart2local, vcv_local2cart, hr, h1, h3]

/-- Witness for C2 at a 2x2 zero matrix. -/
theorem vcv_shape_rejected_witness :
    vcv_cart2local ⟨2, 2, fun _ _ => 0⟩ 0 0 = .error "Matrix must be either 3x1 or 3x3" ∧
    vcv_local2cart ⟨2, 2, fun _ _ => 0⟩ 0 0 = .error "Matrix must be either 3x1 or 3x3" :=
  vcv_shape_rejected ⟨2, 2, fun _ _ => 0⟩ 0 0 (Or.inl (by decide))

lemma arg_three_zero : Complex.arg ⟨3, 0⟩ = 0 := by
  rw [show (⟨3, 0⟩ : ℂ) = ((3 : ℝ) : ℂ) from rfl]
  exact Complex.arg_ofReal_of_nonneg (by norm_num)

lemma error_ellipse_diag41 :
    error_ellipse (Matrix.of ![![4, 0, 0], ![0, 1, 0], ![0, 0, 0]]) = .ok (2, 1, 90) := by
  have h9 : Real.sqrt 9 = 3 := by
    rw [show (9 : ℝ) = 3 ^ 2 by norm_num, Real.sqrt_sq (by norm_num : (0:ℝ) ≤ 3)]
  have h4 : Real.sqrt 4 = 2 := by
    rw [show (4 : ℝ) = 2 ^ 2 by norm_num, Real.sqrt_sq (by norm_num : (0:ℝ) ≤ 2)]
  norm_num [error_ellipse, degrees, atan2, h9, h4, Real.sqrt_one, arg_three_zero]

/-- C3: for the input with horizontal block diag(4,1), `error_ellipse`
returns semi-major axis 2 and semi-minor axis 1, but orientation 90
degrees, not 0: the major axis lies along the first (x) coordinate, at
bearing 90 from the formula `90 - degrees(atan2(0, 3)/2)`. -/
theorem error_ellipse_diag41_values :
    error_ellipse (Matrix.of ![![4, 0, 0], ![0, 1, 0], ![0, 0, 0]]) = .ok (2, 1, 90) :=
  error_ellipse_diag41

/-- Counterexample for C3 as stated: at diag(4,1) the orientation is 90,
not 0, so the claimed output (2, 1, 0) is not the result. -/
theorem error_ellipse_diag41_orientation_not_zero :
    ¬ error_ellipse (Matrix.of ![![4, 0, 0], ![0, 1, 0], ![0, 0, 0]]) = .ok (2, 1, 0) := by
  rw [error_ellipse_diag41]
  intro h
  have := (Prod.mk.injEq _ _ _ _).mp (Except.ok.inj h)
  have h90 := ((Prod.mk.injEq _ _ _ _).mp this.2).2
  norm_num at h90

/-- C4: for every 3x3 input whose horizontal 2x2 block is symmetric and
positive semi-definite (as a quadratic form), `error_ellipse` succeeds and
returns axes with a ≥ b ≥ 0. -/
theorem error_ellipse_a_ge_b (V : Matrix (Fin 3) (Fin 3) ℝ)
    (_hsym : V 0 1 = V 1 0)
    (hpsd : ∀ x y : ℝ, 0 ≤ V 0 0 * x ^ 2 + 2 * V 0 1 * (x * y) + V 1 1 * y ^ 2) :
    ∃ a b θ, error_ellipse V = .ok (a, b, θ) ∧ 0 ≤ b ∧ b ≤ a := by
  have hxx : 0 ≤ V 0 0 := by have h := hpsd 1 0; nlinarith [h]
  have hyy : 0 ≤ V 1 1 := by have h := hpsd 0 1; nlinarith [h]
  have hq : ∀ x : ℝ, 0 ≤ V 0 0 * (x * x) + (2 * V 0 1) * x + V 1 1 := by
    intro x
    have h := hpsd x 1
    nlinarith [h]
  have hd : discrim (V 0 0) (2 * V 0 1) (V 1 1) ≤ 0 := discrim_le_zero hq
  rw [discrim] at hd
  have hz0 : 0 ≤ (V 0 0 - V 1 1) ^ 2 + 4 * V 0 1 ^ 2 := by positivity
  have hsq : (V 0 0 - V 1 1) ^ 2 + 4 * V 0 1 ^ 2 ≤ (V 0 0 + V 1 1) ^ 2 := by nlinarith [hd]
  have hzle : Real.sqrt ((V 0 0 - V 1 1) ^ 2 + 4 * V 0 1 ^ 2) ≤ V 0 0 + V 1 1 := by
    calc Real.sqrt ((V 0 0 - V 1 1) ^ 2 + 4 * V 0 1 ^ 2)
        ≤ Real.sqrt ((V 0 0 + V 1 1) ^ 2) := Real.sqrt_le_sqrt hsq
      _ = V 0 0 + V 1 1 := Real.sqrt_sq (by linarith)
  have hzn : 0 ≤ Real.sqrt ((V 0 0 - V 1 1) ^ 2 + 4 * V 0 1 ^ 2) := Real.sqrt_nonneg _
  have harad : ¬ 0.5 * (V 0 0 + V 1 1 + Real.sqrt ((V 0 0 - V 1 1) ^ 2 + 4 * V 0 1 ^ 2)) < 0 := by
    push_neg
    linarith
  have hbrad : ¬ 0.5 * (V 0 0 + V 1 1 - Real.sqrt ((V 0 0 - V 1 1) ^ 2 + 4 * V 0 1 ^ 2)) < 0 := by
    push_neg
    linarith
  refine ⟨Real.sqrt (0.5 * (V 0 0 + V 1 1 + Real.sqrt ((V 0 0 - V 1 1) ^ 2 + 4 * V 0 1 ^ 2))),
    Real.sqrt (0.5 * (V 0 0 + V 1 1 - Real.sqrt ((V 0 0 - V 1 1) ^ 2 + 4 * V 0 1 ^ 2))),
    90 - degrees (0.5 * atan2 (2 * V 0 1) (V 0 0 - V 1 1)),
    ?_, Real.sqrt_nonneg _, Real.sqrt_le_sqrt (by linarith)⟩
  simp only [error_ellipse]
  rw [if_neg (not_lt.2 hz0), if_neg harad, if_neg hbrad]

/-- Witness for C4 at the PSD block diag(4,1). -/
theorem error_ellipse_a_ge_b_witness :
    ∃ a b θ, error_ellipse (Matrix.of ![![4, 0, 0], ![0, 1, 0], ![0, 0, 0]]) = .ok (a, b, θ) ∧
      0 ≤ b ∧ b ≤ a :=
  error_ellipse_a_ge_b _ (by norm_num)
    (fun x y => by norm_num; nlinarith [sq_nonneg x, sq_nonneg y])

/-- C5: for every 3x3 input where the radicand `0.5*(Vxx+Vyy-z)` of the
semi-minor axis is negative (as happens when the horizontal block is not
positive semi-definite), `error_ellipse` fails with the math-domain error
instead of returning a value. -/
theorem error_ellipse_neg_radicand_error (V : Matrix (Fin 3) (Fin 3) ℝ)
    (h : 0.5 * (V 0 0 + V 1 1 - Real.sqrt ((V 0 0 - V 1 1) ^ 2 + 4 * V 0 1 ^ 2)) < 0) :
    error_ellipse V = .error "math domain error" := by
  have hz0 : 0 ≤ (V 0 0 - V 1 1) ^ 2 + 4 * V 0 1 ^ 2 := by positivity
  simp only [error_ellipse]
  rw [if_neg (not_lt.2 hz0)]
  by_cases ha : 0.5 * (V 0 0 + V 1 1 + Real.sqrt ((V 0 0 - V 1 1) ^ 2 + 4 * V 0 1 ^ 2)) < 0
  · rw [if_pos ha]
  · rw [if_neg ha, if_pos h]

/-- Witness for C5 at the non-PSD block with Vxx = Vyy = 1, Vxy = 2. -/
theorem error_ellipse_neg_radicand_error_witness :
    error_ellipse (Matrix.of ![![1, 2, 0], ![2, 1, 0], ![0, 0, 0]]) = .error "math domain error" := by
  have h16 : Real.sqrt 16 = 4 := by
    rw [show (16 : ℝ) = 4 ^ 2 by norm_num, Real.sqrt_sq (by norm_num : (0:ℝ) ≤ 4)]
  exact error_ellipse_neg_radicand_error _ (by norm_num [h16])

/-- C10: whenever `error_ellipse` returns a result, the orientation lies in
the half-open interval [0, 180) degrees, since `atan2` has range
(-pi, pi]. -/
theorem error_ellipse_orientation_range (V : Matrix (Fin 3) (Fin 3) ℝ)
    (a b θ : ℝ) (h : error_ellipse V = .ok (a, b, θ)) :
    0 ≤ θ ∧ θ < 180 := by
  have hπ := Real.pi_pos
  have harg1 : -Real.pi < Complex.arg ⟨V 0 0 - V 1 1, 2 * V 0 1⟩ := Complex.neg_pi_lt_arg _
  have harg2 : Complex.arg ⟨V 0 0 - V 1 1, 2 * V 0 1⟩ ≤ Real.pi := Complex.arg_le_pi _
  have hθ : θ = 90 - degrees (0.5 * atan2 (2 * V 0 1) (V 0 0 - V 1 1)) := by
    simp only [error_ellipse] at h
    split_ifs at h
    exact (((Prod.mk.injEq _ _ _ _).mp
      ((Prod.mk.injEq _ _ _ _).mp (Except.ok.inj h)).2).2).symm
  subst hθ
  simp only [degrees, atan2]
  have hu1 : Complex.arg ⟨V 0 0 - V 1 1, 2 * V 0 1⟩ / Real.pi ≤ 1 :=
    (div_le_one hπ).2 harg2
  have hu2 : -1 < Complex.arg ⟨V 0 0 - V 1 1, 2 * V 0 1⟩ / Real.pi := by
    rw [lt_div_iff₀ hπ]
    linarith
  have hrw : 0.5 * Complex.arg ⟨V 0 0 - V 1 1, 2 * V 0 1⟩ * (180 / Real.pi) =
      90 * (Complex.arg ⟨V 0 0 - V 1 1, 2 * V 0 1⟩ / Real.pi) := by
    ring
  rw [hrw]
  constructor
  · linarith
  · linarith

/-- Witness for C10 at the block diag(4,1), where the orientation is 90. -/
theorem error_ellipse_orientation_range_witness : (0:ℝ) ≤ 90 ∧ (90:ℝ) < 180 :=
  error_ellipse_orientation_range (Matrix.of ![![4, 0, 0], ![0, 1, 0], ![0, 0, 0]])
    2 1 90 error_ellipse_diag41

/-- C6: for every a > 0 and b, `circ_hz_pu a b` returns
`a * (1.960790 + 0.004071*c + 0.114276*c^2 + 0.371625*c^3)` with `c = b/a`
and exactly those literal constants; in particular `circ_hz_pu 1 1` is
2.450762, the sum of the four constants. -/
theorem circ_hz_pu_poly (a b : ℚ) (h : 0 < a) :
    circ_hz_pu a b = .ok (a * (1.960790 + 0.004071 * (b / a) + 0.114276 * (b / a) ^ 2 +
      0.371625 * (b / a) ^ 3)) ∧ circ_hz_pu 1 1 = .ok 2.450762 := by
  constructor
  · rw [circ_hz_pu, if_neg h.ne']
  · norm_num [circ_hz_pu]

/-- Witness for C6 at a = b = 1. -/
theorem circ_hz_pu_poly_witness :
    circ_hz_pu 1 1 = .ok (1 * (1.960790 + 0.004071 * ((1:ℚ) / 1) + 0.114276 * ((1:ℚ) / 1) ^ 2 +
      0.371625 * ((1:ℚ) / 1) ^ 3)) ∧ circ_hz_pu 1 1 = .ok 2.450762 :=
  circ_hz_pu_poly 1 1 (by norm_num)

/-- C7: calling `circ_hz_pu` with a = 0 fails with the division-by-zero
error rather than returning any value. -/
theorem circ_hz_pu_zero_division (b : ℚ) :
    circ_hz_pu 0 b = .error "ZeroDivisionError" := by
  rw [circ_hz_pu, if_pos rfl]

/-- C8: `k_val95` returns the table entry at index dof-1 for 1 ≤ dof ≤ 120,
clamps to the dof=1 entry 12.7062 for dof < 1, and returns 1.96 for
dof > 120; in particular at 1, 0, 120 and 121 it returns 12.7062, 12.7062,
1.97993 and 1.96. -/
theorem k_val95_policy :
    (∀ d : ℤ, 1 ≤ d → d ≤ 120 → k_val95 d = ttable_p95.getD (d - 1).toNat 0) ∧
    (∀ d : ℤ, d < 1 → k_val95 d = 12.7062) ∧
    (∀ d : ℤ, 120 < d → k_val95 d = 1.96) ∧
    k_val95 1 = 12.7062 ∧ k_val95 0 = 12.7062 ∧ k_val95 120 = 1.97993 ∧ k_val95 121 = 1.96 := by
  refine ⟨?_, ?_, ?_, rfl, rfl, rfl, rfl⟩
  · intro d h1 h2
    rw [k_val95, if_neg (by omega), if_neg (by omega)]
  · intro d h
    rw [k_val95, if_pos h]
    rfl
  · intro d h
    rw [k_val95, if_neg (by omega), if_pos (by omega)]

/-- Witness for C8 at dof = 50. -/
theorem k_val95_policy_witness :
    k_val95 50 = ttable_p95.getD ((50:ℤ) - 1).toNat 0 :=
  k_val95_policy.1 50 (by norm_num) (by norm_num)

/-- C9: for every float argument, including numerically integral floats
such as 2.0, `k_val95` raises the TypeError and returns no value. -/
theorem k_val95_float_type_error :
    (∀ q : ℚ, k_val95_py (.float q) = .error "Degrees of Freedom must be Int") ∧
    k_val95_py (.float 2) = .error "Degrees of Freedom must be Int" :=
  ⟨fun _ => rfl, rfl⟩

end GeodePy
